import Mathlib

/-!
Verification of the authentication and session-security core of the
billmanager backend (apps/server/app.py) against its natural-language
specification.

The Python source is shallowly embedded: relational tables become lists of
records, the SQLAlchemy session becomes explicit state passing (with an
explicit committed/pending split where transactional rollback matters),
wall-clock time is an explicit natural-number parameter (seconds), and
values produced by cryptographically secure randomness (tokens, nonces,
row ids) are explicit parameters of the embedded functions.

Cryptographic hashing (hashlib.sha256 hex digests and werkzeug password
hashes) is modelled by injective tagging functions: the code only ever
compares digests for equality, so an injective function captures the
standard collision-freedom assumption.
-/

namespace BillManager

/-- Model of hashlib.sha256(s).hexdigest(): an injective tagging function
standing in for the collision-free hash used for token lookup. -/
def sha256Hex (s : String) : String := "sha256$" ++ s

/-- Model of werkzeug.security.generate_password_hash. -/
def generate_password_hash (s : String) : String := "pbkdf2$" ++ s

/-- Model of werkzeug.security.check_password_hash: the stored hash
matches exactly the hash of the supplied value. -/
def check_password_hash (h code : String) : Bool := h == generate_password_hash code

theorem sha256Hex_injective {a b : String} (h : sha256Hex a = sha256Hex b) : a = b := by
  unfold sha256Hex at h
  have hd : ("sha256$".data ++ a.data) = ("sha256$".data ++ b.data) := by
    have := congrArg String.data h
    simpa [String.data_append] using this
  have hab : a.data = b.data := List.append_cancel_left hd
  cases a; cases b; exact congrArg String.mk hab

/-- Python truthiness of an optional string: None and the empty string
are falsy. -/
def pyFalsyOpt : Option String → Bool
  | none => true
  | some s => s == ""

/-- Python str.upper over the character list (the builtin String.map
is defined by well-founded recursion and does not evaluate in
proofs). -/
def pyUpper (s : String) : String := String.mk (s.data.map Char.toUpper)

/-- Python str.lower over the character list. -/
def pyLower (s : String) : String := String.mk (s.data.map Char.toLower)

/-- Python str.strip over the character list. -/
def pyStrip (s : String) : String :=
  String.mk (((s.data.dropWhile Char.isWhitespace).reverse.dropWhile
    Char.isWhitespace).reverse)

/-- Embedding of models.py RefreshToken: one row of the refresh_tokens table
(token_hash has a unique constraint). -/
structure RefreshTokenRec where
  id : Nat
  user_id : Nat
  token_hash : String
  expires_at : Nat
  revoked : Bool
  created_at : Nat
  device_info : Option String
deriving DecidableEq, Repr

/-- Embedding of models.py User, restricted to the fields the authentication core
reads. -/
structure UserRec where
  id : Nat
  username : String
  email : Option String
  email_verified_at : Option Nat
  role : String
deriving DecidableEq, Repr

/-- Embedding of app.py _get_refresh_token_from_request: JSON body field first, then
the HttpOnly cookie; the Python `or` falls through on an empty body
value. -/
def _get_refresh_token_from_request (body cookie : Option String) : Option String :=
  match body with
  | some s => if s ≠ "" then some s else cookie
  | none => cookie

/-- The predicate of RefreshToken.query.filter_by(token_hash=h,
revoked=False). -/
def refreshMatch (h : String) (r : RefreshTokenRec) : Bool :=
  r.token_hash == h && !r.revoked

/-- Setting revoked=True on the row object returned by
filter_by(token_hash=h, revoked=False).first(): the first matching row
is updated in place, every other row is untouched. -/
def revokeFirstActive (h : String) : List RefreshTokenRec → List RefreshTokenRec
  | [] => []
  | r :: rs =>
    if refreshMatch h r then { r with revoked := true } :: rs
    else r :: revokeFirstActive h rs

/-- Setting revoked=True on the row returned by
filter_by(token_hash=h).first() (revoked rows included), as jwt_logout
does. -/
def revokeFirstByHash (h : String) : List RefreshTokenRec → List RefreshTokenRec
  | [] => []
  | r :: rs =>
    if r.token_hash == h then { r with revoked := true } :: rs
    else r :: revokeFirstByHash h rs

/-- Embedding of app.py verify_refresh_token: hash the input, look the row up by
(hash, revoked=False); a newly expired row is lazily revoked and the
transition committed; otherwise the row is returned unchanged. Returns
the verified row (if any) and the committed table state. -/
def verify_refresh_token (token : String) (now : Nat)
    (tokens : List RefreshTokenRec) :
    Option RefreshTokenRec × List RefreshTokenRec :=
  match tokens.find? (refreshMatch (sha256Hex token)) with
  | none => (none, tokens)
  | some r =>
    if r.expires_at < now then (none, revokeFirstActive (sha256Hex token) tokens)
    else (some r, tokens)

/-- Claims of an access token as built by app.py create_access_token
(type "access", 15-minute expiry). -/
structure AccessClaims where
  user_id : Nat
  role : String
  typ : String
  exp : Nat
  iat : Nat
deriving DecidableEq, Repr

/-- Embedding of app.py create_access_token. -/
def create_access_token (user_id : Nat) (role : String) (now : Nat) : AccessClaims :=
  { user_id := user_id, role := role, typ := "access", exp := now + 900, iat := now }

/-- The refresh-token row inserted by app.py create_refresh_token
(7-day expiry, only the hash of the plaintext stored). -/
def newRefreshRow (user_id : Nat) (device_info : Option String)
    (tok : String) (id now : Nat) : RefreshTokenRec :=
  { id := id, user_id := user_id, token_hash := sha256Hex tok,
    expires_at := now + 604800, revoked := false, created_at := now,
    device_info := device_info }

/-- Embedding of app.py create_refresh_token: adds the new row to the session and
commits. On commit success the whole pending session state (which may
carry earlier uncommitted mutations of the caller) is persisted; on
failure the session is rolled back to the committed state and the
exception re-raised (modelled as the none result). commitOk injects the
persistence-failure case. -/
def create_refresh_token (user_id : Nat) (device_info : Option String)
    (newTok : String) (newId now : Nat) (commitOk : Bool)
    (committed pending : List RefreshTokenRec) :
    Option String × List RefreshTokenRec :=
  let pending1 := pending ++ [newRefreshRow user_id device_info newTok newId now]
  if commitOk then (some newTok, pending1) else (none, committed)

/-- Outcome of POST /auth/refresh (app.py jwt_refresh). -/
inductive RefreshOutcome where
  | missingToken
  | invalidToken
  | userNotFound
  | serverError
  | issued (access : AccessClaims) (refresh : String)
deriving DecidableEq, Repr

/-- HTTP status code of each jwt_refresh outcome. -/
def RefreshOutcome.status : RefreshOutcome → Nat
  | .missingToken => 400
  | .invalidToken => 401
  | .userNotFound => 401
  | .serverError => 500
  | .issued _ _ => 200

/-- Embedding of app.py jwt_refresh (POST /auth/refresh): verify the presented
refresh token, mark the stored row revoked in the session (uncommitted),
then create_refresh_token inserts the new row and commits both changes
together; its rollback on failure undoes the uncommitted revocation.
Returns the response outcome and the committed refresh_tokens table. -/
def jwt_refresh (body cookie : Option String) (now : Nat)
    (users : List UserRec) (newTok : String) (newId : Nat) (commitOk : Bool)
    (tokens : List RefreshTokenRec) : RefreshOutcome × List RefreshTokenRec :=
  match _get_refresh_token_from_request body cookie with
  | none => (.missingToken, tokens)
  | some t =>
    if t = "" then (.missingToken, tokens)
    else
      match verify_refresh_token t now tokens with
      | (none, tokens1) => (.invalidToken, tokens1)
      | (some stored, tokens1) =>
        match users.find? (fun u => u.id == stored.user_id) with
        | none => (.userNotFound, tokens1)
        | some user =>
          let pending := revokeFirstActive (sha256Hex t) tokens1
          let access := create_access_token user.id user.role now
          match create_refresh_token user.id stored.device_info newTok newId now
              commitOk tokens1 pending with
          | (none, committed) => (.serverError, committed)
          | (some newRefresh, committed) => (.issued access newRefresh, committed)

/-- Response of POST /auth/logout (app.py jwt_logout): always HTTP 200
success with the refresh cookie cleared. -/
structure LogoutResponse where
  status : Nat
  success : Bool
  cookieCleared : Bool
deriving DecidableEq, Repr

/-- Embedding of app.py jwt_logout (POST /auth/logout): if a token was presented and
a row with its hash exists, set revoked=True and commit; always respond
200 success and clear the refresh cookie. -/
def jwt_logout (body cookie : Option String)
    (tokens : List RefreshTokenRec) : LogoutResponse × List RefreshTokenRec :=
  let resp : LogoutResponse := { status := 200, success := true, cookieCleared := true }
  match _get_refresh_token_from_request body cookie with
  | none => (resp, tokens)
  | some t =>
    if t = "" then (resp, tokens)
    else (resp, revokeFirstByHash (sha256Hex t) tokens)

/-- The process-wide used-nonce bookkeeping: _used_oauth_nonces (a map
from nonce to eviction instant, modelled as an association list) and
_nonce_last_cleanup. -/
structure NonceState where
  used : List (String × Nat)
  lastCleanup : Nat
deriving DecidableEq, Repr

/-- Embedding of app.py _cleanup_used_nonces: at most every 300 seconds
(_NONCE_CLEANUP_INTERVAL), drop every entry whose eviction instant has
passed. The Python guard (now - last < 300, with a possibly negative
difference) is equivalent to now < last + 300 over integers. -/
def _cleanup_used_nonces (now : Nat) (st : NonceState) : NonceState :=
  if now < st.lastCleanup + 300 then st
  else { lastCleanup := now, used := st.used.filter (fun p => !decide (p.2 < now)) }

/-- Payload of the signed OAuth state JWT built by
_generate_oauth_state. Only tokens carrying a valid signature (i.e.
produced by this server) reach the payload checks, so the embedding
ranges over payloads. -/
structure StatePayload where
  provider : String
  flow : String
  state_nonce : String
  id_token_nonce : String
  code_verifier : String
  exp : Nat
  iat : Nat
  typ : String
  link_user_id : Option Nat
deriving DecidableEq, Repr

/-- Embedding of app.py _generate_oauth_state: bundle provider, flow, a fresh
state_nonce, the ID-token nonce and the PKCE verifier into a signed
payload with a 5-minute expiry. The state_nonce (secrets.token_hex) is
an explicit parameter. -/
def _generate_oauth_state (provider code_verifier nonce flow : String)
    (link_user_id : Option Nat) (state_nonce : String) (now : Nat) : StatePayload :=
  { provider := provider, flow := flow, state_nonce := state_nonce,
    id_token_nonce := nonce, code_verifier := code_verifier,
    exp := now + 300, iat := now, typ := "oauth_state",
    link_user_id := link_user_id }

/-- Embedding of app.py _verify_oauth_state: run the lazy nonce cleanup, decode the
JWT (PyJWT treats exp less than or equal to now as expired), check the
type claim, reject a missing or already-used state_nonce, otherwise
record the nonce with a 10-minute eviction deadline and accept. -/
def _verify_oauth_state (tok : StatePayload) (now : Nat) (st : NonceState) :
    Option StatePayload × NonceState :=
  let st1 := _cleanup_used_nonces now st
  if tok.exp ≤ now then (none, st1)
  else if tok.typ ≠ "oauth_state" then (none, st1)
  else if tok.state_nonce = "" then (none, st1)
  else if st1.used.any (fun p => p.1 == tok.state_nonce) then (none, st1)
  else (some tok, { st1 with used := (tok.state_nonce, now + 600) :: st1.used })

/-- Modelled from the spec: the TwoFAConfig model class is imported by
app.py from models but its definition is not part of the provided
sources. Fields follow the data model section: one row per user, method
flags, and the serialized list of recovery-code hashes (none models a
NULL or empty column value, which Python treats as falsy; a present but
empty list is truthy, as the JSON text of an empty list is). -/
structure TwoFAConfigRec where
  user_id : Nat
  email_otp_enabled : Bool
  passkey_enabled : Bool
  recovery_codes_hash : Option (List String)
deriving DecidableEq, Repr

/-- Modelled from the spec: is_enabled is true when any method is
enabled. -/
def TwoFAConfigRec.is_enabled (c : TwoFAConfigRec) : Bool :=
  c.email_otp_enabled || c.passkey_enabled

/-- Modelled from the spec: the TwoFAChallenge model class is imported
by app.py from models but its definition is not part of the provided
sources. Fields follow the data model section (max_attempts defaults to
5; the session token is stored only as its hash). -/
structure TwoFAChallengeRec where
  id : Nat
  user_id : Nat
  token_hash : String
  challenge_type : String
  otp_code_hash : Option String
  attempts : Nat
  max_attempts : Nat
  used : Bool
  expires_at : Nat
deriving DecidableEq, Repr

/-- Modelled from the spec: a challenge is expired once expires_at has
passed. -/
def TwoFAChallengeRec.is_expired (c : TwoFAChallengeRec) (now : Nat) : Bool :=
  c.expires_at < now

/-- Modelled from the spec: the WebAuthnCredential model class is
imported by app.py from models but its definition is not part of the
provided sources; only the fields twofa_verify reads are modelled. -/
structure WebAuthnCredentialRec where
  id : Nat
  user_id : Nat
  credential_id : String
  public_key : String
  sign_count : Nat
deriving DecidableEq, Repr

/-- Error outcomes of app.py _verify_2fa_session, with their HTTP
status codes. -/
inductive SessionError where
  | missingToken
  | invalidSession
  | expired
  | alreadyUsed
  | locked
deriving DecidableEq, Repr

/-- HTTP status of each _verify_2fa_session error (locked carries the
locked flag and 429). -/
def SessionError.status : SessionError → Nat
  | .missingToken => 400
  | .invalidSession => 401
  | .expired => 401
  | .alreadyUsed => 401
  | .locked => 429

/-- Embedding of app.py _verify_2fa_session: look the challenge up by the hash of
the opaque session token, then reject expired, already-used, and locked
(attempts at or above max_attempts) sessions, in that order. -/
def _verify_2fa_session (token : Option String) (now : Nat)
    (challenges : List TwoFAChallengeRec) :
    Except SessionError TwoFAChallengeRec :=
  match token with
  | none => .error .missingToken
  | some t =>
    if t = "" then .error .missingToken
    else
      match challenges.find? (fun c => c.token_hash == sha256Hex t) with
      | none => .error .invalidSession
      | some c =>
        if c.is_expired now then .error .expired
        else if c.used then .error .alreadyUsed
        else if c.max_attempts ≤ c.attempts then .error .locked
        else .ok c

/-- Incrementing challenge.attempts on the row object returned by the
token-hash lookup: the first matching row is updated in place. -/
def bumpAttemptsFirst (h : String) : List TwoFAChallengeRec → List TwoFAChallengeRec
  | [] => []
  | c :: cs =>
    if c.token_hash == h then { c with attempts := c.attempts + 1 } :: cs
    else c :: bumpAttemptsFirst h cs

/-- Setting challenge.used=True on the row object returned by the
token-hash lookup. -/
def markUsedFirst (h : String) : List TwoFAChallengeRec → List TwoFAChallengeRec
  | [] => []
  | c :: cs =>
    if c.token_hash == h then { c with used := true } :: cs
    else c :: markUsedFirst h cs

/-- Writing config.recovery_codes_hash on the row object returned by
the user-id lookup. -/
def setRecoveryFirst (uid : Nat) (v : Option (List String)) :
    List TwoFAConfigRec → List TwoFAConfigRec
  | [] => []
  | c :: cs =>
    if c.user_id == uid then { c with recovery_codes_hash := v } :: cs
    else c :: setRecoveryFirst uid v cs

/-- Updating the sign counter of the credential row used for a passkey
assertion. -/
def setSignCountFirst (uid : Nat) (cid : String) (n : Nat) :
    List WebAuthnCredentialRec → List WebAuthnCredentialRec
  | [] => []
  | c :: cs =>
    if c.user_id == uid && c.credential_id == cid then { c with sign_count := n } :: cs
    else c :: setSignCountFirst uid cid n cs

/-- The persistent stores read and written by the 2FA verify endpoint. -/
structure TwoFAState where
  users : List UserRec
  challenges : List TwoFAChallengeRec
  configs : List TwoFAConfigRec
  creds : List WebAuthnCredentialRec
  refreshTokens : List RefreshTokenRec
deriving DecidableEq, Repr

/-- Request body of POST /auth/2fa/verify; method carries the Python
default email_otp when absent, and credential_id stands for the id field
of the submitted WebAuthn credential. -/
structure VerifyRequest where
  session_token : Option String
  method : String
  code : Option String
  credential_id : Option String
  recovery_code : Option String
  device_info : Option String
deriving DecidableEq, Repr

/-- Outcome of POST /auth/2fa/verify (app.py twofa_verify). -/
inductive VerifyOutcome where
  | sessionError (e : SessionError)
  | userNotFound
  | missingCode
  | invalidCode
  | missingCredential
  | passkeysDisabled
  | unrecognizedCredential
  | passkeyFailed
  | missingRecoveryCode
  | noRecoveryCodes
  | invalidRecoveryCode
  | unknownMethod
  | issued (access : AccessClaims) (refresh : String)
deriving DecidableEq, Repr

/-- HTTP status of each twofa_verify outcome. -/
def VerifyOutcome.status : VerifyOutcome → Nat
  | .sessionError e => e.status
  | .userNotFound => 404
  | .issued _ _ => 200
  | _ => 400

/-- Shared success tail of twofa_verify: mark the challenge used,
commit, and issue a fresh JWT pair (the new refresh row is persisted by
create_refresh_token). -/
def issueAfter2FA (user : UserRec) (h : String) (device_info : Option String)
    (newTok : String) (newId now : Nat) (st : TwoFAState) :
    VerifyOutcome × TwoFAState :=
  let st1 := { st with challenges := markUsedFirst h st.challenges }
  let access := create_access_token user.id user.role now
  (.issued access newTok,
    { st1 with refreshTokens :=
        st1.refreshTokens ++ [newRefreshRow user.id device_info newTok newId now] })

/-- Embedding of app.py twofa_verify (POST /auth/2fa/verify). The outcome of the
external WebAuthn library verification is the oracle parameter
webauthnOk (with newSignCount the counter it reports); everything else
follows the source: the session check runs first, wrong or missing OTP
codes and unrecognized credentials increment attempts and commit before
returning, the recovery branch locks the config row, consumes the first
matching hash by removal, and a successful branch marks the challenge
used and issues tokens. -/
def twofa_verify (req : VerifyRequest) (now : Nat)
    (enablePasskeys webauthnOk : Bool) (newSignCount : Nat)
    (newTok : String) (newId : Nat)
    (st : TwoFAState) : VerifyOutcome × TwoFAState :=
  match _verify_2fa_session req.session_token now st.challenges with
  | .error e => (.sessionError e, st)
  | .ok challenge =>
    match st.users.find? (fun u => u.id == challenge.user_id) with
    | none => (.userNotFound, st)
    | some user =>
      let h := sha256Hex ((req.session_token).getD "")
      if req.method = "email_otp" then
        if pyFalsyOpt req.code || pyFalsyOpt challenge.otp_code_hash then
          (.missingCode, { st with challenges := bumpAttemptsFirst h st.challenges })
        else if check_password_hash (challenge.otp_code_hash.getD "") (req.code.getD "") then
          issueAfter2FA user h req.device_info newTok newId now st
        else
          (.invalidCode, { st with challenges := bumpAttemptsFirst h st.challenges })
      else if req.method = "passkey" then
        if req.credential_id = none then (.missingCredential, st)
        else if !enablePasskeys then (.passkeysDisabled, st)
        else
          match st.creds.find? (fun c =>
              c.user_id == challenge.user_id &&
              c.credential_id == (req.credential_id).getD "") with
          | none =>
            (.unrecognizedCredential,
              { st with challenges := bumpAttemptsFirst h st.challenges })
          | some _ =>
            if webauthnOk then
              let creds1 := setSignCountFirst challenge.user_id
                ((req.credential_id).getD "") newSignCount st.creds
              issueAfter2FA user h req.device_info newTok newId now
                { st with creds := creds1 }
            else
              (.passkeyFailed, { st with challenges := bumpAttemptsFirst h st.challenges })
      else if req.method = "recovery" then
        if pyFalsyOpt req.recovery_code then (.missingRecoveryCode, st)
        else
          match st.configs.find? (fun c => c.user_id == challenge.user_id) with
          | none => (.noRecoveryCodes, st)
          | some config =>
            match config.recovery_codes_hash with
            | none => (.noRecoveryCodes, st)
            | some hashes =>
              match hashes.findIdx? (fun hh =>
                  check_password_hash hh (pyUpper ((req.recovery_code).getD ""))) with
              | some idx =>
                let configs1 := setRecoveryFirst challenge.user_id
                  (some (hashes.eraseIdx idx)) st.configs
                issueAfter2FA user h req.device_info newTok newId now
                  { st with configs := configs1 }
              | none =>
                (.invalidRecoveryCode,
                  { st with challenges := bumpAttemptsFirst h st.challenges })
      else (.unknownMethod, st)

/-- Modelled from the spec: the OAuthAccount model class is imported by
app.py from models but its definition is not part of the provided
sources; fields follow the data model section. -/
structure OAuthAccountRec where
  id : Nat
  user_id : Nat
  provider : String
  provider_user_id : String
  provider_email : Option String
  profile_data : Option String
deriving DecidableEq, Repr

/-- Embedding of models.py Database, restricted to the fields the OIDC
auto-registration path writes. -/
structure DatabaseRec where
  id : Nat
  name : String
  display_name : String
  description : String
  owner_id : Nat
deriving DecidableEq, Repr

/-- The persistent stores the OIDC callback reads and writes;
userDatabases records the accessible_databases association rows. -/
structure OAuthState where
  users : List UserRec
  oauthAccounts : List OAuthAccountRec
  databases : List DatabaseRec
  userDatabases : List (Nat × Nat)
  twofaConfigs : List TwoFAConfigRec
  twofaChallenges : List TwoFAChallengeRec
  refreshTokens : List RefreshTokenRec
deriving DecidableEq, Repr

/-- The predicate of OAuthAccount.query.filter_by(provider,
provider_user_id). -/
def linkMatch (provider puid : String) (a : OAuthAccountRec) : Bool :=
  a.provider == provider && a.provider_user_id == puid

/-- Deleting the row object returned by the (provider,
provider_user_id) lookup. -/
def removeFirstLink (provider puid : String) :
    List OAuthAccountRec → List OAuthAccountRec
  | [] => []
  | a :: as_ =>
    if linkMatch provider puid a then as_
    else a :: removeFirstLink provider puid as_

/-- Updating profile_data and provider_email on the row object returned
by the (provider, provider_user_id) lookup. -/
def updateFirstLink (provider puid : String) (email profile : Option String) :
    List OAuthAccountRec → List OAuthAccountRec
  | [] => []
  | a :: as_ =>
    if linkMatch provider puid a then
      { a with profile_data := profile, provider_email := email } :: as_
    else a :: updateFirstLink provider puid email profile as_

/-- The SQL predicate lower(users.email) = lower(:email); a NULL email
column never matches. -/
def emailMatch (e : String) (u : UserRec) : Bool :=
  match u.email with
  | some ue => pyLower ue == pyLower e
  | none => false

/-- Whether a username is already taken
(User.query.filter_by(username=...)). -/
def usernameTaken (users : List UserRec) (name : String) : Bool :=
  users.any (fun u => u.username == name)

/-- The while loop of the username disambiguation, with explicit fuel:
the candidates base, base1, base2, ... are pairwise distinct, so
users.length + 1 candidates always contain a free one. -/
def disambiguateGo (users : List UserRec) (base : String) :
    Nat → String → Nat → String
  | 0, username, _ => username
  | fuel + 1, username, counter =>
    if usernameTaken users username then
      disambiguateGo users base fuel (base ++ toString counter) (counter + 1)
    else username

/-- Embedding of app.py _resolve_oauth_user username generation: start from the
email local part (or provider_user fallback) and append an increasing
counter until the name is free. -/
def disambiguateUsername (users : List UserRec) (base : String) : String :=
  disambiguateGo users base (users.length + 1) base 1

/-- The base username derived from the email local part, or
provider_user when no email is present. -/
def baseUsername (provider : String) (email : Option String) : String :=
  match email with
  | some e => if e ≠ "" then ((e.splitOn "@").headD e) else provider ++ "_user"
  | none => provider ++ "_user"

/-- Embedding of app.py _resolve_oauth_user steps 2 and 3: auto-link by verified
email, else auto-register when policy allows. Row ids and the creation
instant of the rows a successful registration inserts are explicit
parameters. Returns ((user, is_new_user, error_message), state). -/
def _resolve_by_email_or_register (provider puid : String)
    (email profile : Option String) (autoRegister : Bool)
    (newUserId newDbId newLinkId now : Nat) (st : OAuthState) :
    (Option UserRec × Bool × Option String) × OAuthState :=
  let step3 : (Option UserRec × Bool × Option String) × OAuthState :=
    if !autoRegister then
      ((none, false, some "Account not found. Contact your administrator."), st)
    else
      let base := baseUsername provider email
      let username := disambiguateUsername st.users base
      let newUser : UserRec :=
        { id := newUserId, username := username, email := email,
          email_verified_at := some now, role := "admin" }
      let newDb : DatabaseRec :=
        { id := newDbId, name := "db_" ++ toString newUserId,
          display_name := "Personal", description := "My bills and finances",
          owner_id := newUserId }
      let newLink : OAuthAccountRec :=
        { id := newLinkId, user_id := newUserId, provider := provider,
          provider_user_id := puid, provider_email := email,
          profile_data := profile }
      ((some newUser, true, none),
        { st with users := st.users ++ [newUser],
                  databases := st.databases ++ [newDb],
                  userDatabases := st.userDatabases ++ [(newUserId, newDbId)],
                  oauthAccounts := st.oauthAccounts ++ [newLink] })
  match email with
  | none => step3
  | some e =>
    if e = "" then step3
    else
      match st.users.find? (emailMatch e) with
      | none => step3
      | some existing =>
        if existing.email_verified_at.isSome then
          let newLink : OAuthAccountRec :=
            { id := newLinkId, user_id := existing.id, provider := provider,
              provider_user_id := puid, provider_email := email,
              profile_data := profile }
          ((some existing, false, none),
            { st with oauthAccounts := st.oauthAccounts ++ [newLink] })
        else
          ((none, false,
            some "An account with this email exists but is not verified. Please verify your email first or log in with your password."), st)

/-- Embedding of app.py _resolve_oauth_user: resolution order is existing link
(refreshing its cached profile), then auto-link by verified email, then
auto-register. An orphaned link (its user row gone) is deleted before
falling through. -/
def _resolve_oauth_user (provider puid : String)
    (email profile : Option String) (autoRegister : Bool)
    (newUserId newDbId newLinkId now : Nat) (st : OAuthState) :
    (Option UserRec × Bool × Option String) × OAuthState :=
  match st.oauthAccounts.find? (linkMatch provider puid) with
  | some acct =>
    match st.users.find? (fun u => u.id == acct.user_id) with
    | some user =>
      match profile with
      | some _ =>
        ((some user, false, none),
          { st with oauthAccounts :=
              updateFirstLink provider puid email profile st.oauthAccounts })
      | none => ((some user, false, none), st)
    | none =>
      let st1 := { st with oauthAccounts := removeFirstLink provider puid st.oauthAccounts }
      _resolve_by_email_or_register provider puid email profile autoRegister
        newUserId newDbId newLinkId now st1
  | none =>
    _resolve_by_email_or_register provider puid email profile autoRegister
      newUserId newDbId newLinkId now st

/-- The aud claim of an ID token: absent, a single string, or a list of
strings. -/
inductive AudClaim where
  | missing
  | str (s : String)
  | list (l : List String)
deriving DecidableEq, Repr

/-- The email_verified claim in its accepted encodings (boolean,
integer, string) or absent. -/
inductive VerifiedClaim where
  | missing
  | b (v : Bool)
  | i (v : Int)
  | s (v : String)
deriving DecidableEq, Repr

/-- Claims of a signature-verified ID token, restricted to what
oauth_callback reads; profile stands for the serialized profile_data
dictionary built from the name and picture claims (always a non-empty,
hence truthy, dictionary). -/
structure IdClaims where
  iss : Option String
  aud : AudClaim
  nonce : Option String
  sub : Option String
  email : Option String
  email_verified : VerifiedClaim
  profile : Option String
deriving DecidableEq, Repr

/-- The audience check of oauth_callback: a list aud must contain the
configured client id, a string aud must equal it, and a missing aud
never equals the configured client id string. -/
def audienceMismatchB (clientId : String) : AudClaim → Bool
  | .list l => !l.contains clientId
  | .str s => s != clientId
  | .missing => true

/-- The email_verified coercion of oauth_callback: booleans directly,
integers equal to one, and the strings true, 1, yes after trimming and
lower-casing; any other shape is unverified. -/
def emailVerifiedTruthy : VerifiedClaim → Bool
  | .b v => v
  | .i v => v == 1
  | .s v => pyLower (pyStrip v) == "true" || pyLower (pyStrip v) == "1" ||
      pyLower (pyStrip v) == "yes"
  | .missing => false

/-- Email normalization of oauth_callback (HIGH-3): strip and lower-case
a present, truthy email claim. -/
def normalizeEmail : Option String → Option String
  | some e => if e ≠ "" then some (pyLower (pyStrip e)) else none
  | none => none

/-- Outcome of the modelled portion of POST
/auth/oauth/provider/callback. -/
inductive CallbackResult where
  | issuerMismatch
  | audienceMismatch
  | nonceMismatch
  | emailNotVerified
  | noSubject
  | invalidLinkSession
  | linkConflict
  | resolveError (msg : String)
  | resolveFailed
  | twofaRequired (sessionToken : String) (methods : List String)
  | issued (userId : Nat) (access : AccessClaims) (refresh : String) (isNew : Bool)
deriving DecidableEq, Repr

/-- HTTP status of each modelled callback outcome, as returned by
oauth_callback. -/
def CallbackResult.status : CallbackResult → Nat
  | .issuerMismatch => 401
  | .audienceMismatch => 401
  | .nonceMismatch => 401
  | .emailNotVerified => 401
  | .noSubject => 502
  | .invalidLinkSession => 400
  | .linkConflict => 409
  | .resolveError _ => 409
  | .resolveFailed => 500
  | .twofaRequired _ _ => 403
  | .issued _ _ _ _ => 200

/-- The JSON error string of each modelled callback rejection. -/
def CallbackResult.message : CallbackResult → String
  | .issuerMismatch => "ID token issuer mismatch"
  | .audienceMismatch => "ID token audience mismatch"
  | .nonceMismatch => "ID token nonce mismatch"
  | .emailNotVerified => "Provider email is not verified"
  | .noSubject => "No subject in ID token"
  | .invalidLinkSession => "Invalid link session"
  | .linkConflict => "This social account is already linked to another user"
  | .resolveError msg => msg
  | .resolveFailed => "Failed to resolve user"
  | .twofaRequired _ _ => ""
  | .issued _ _ _ _ => ""

/-- Tail of oauth_callback after user resolution: open a 2FA challenge
session instead of issuing tokens when the user has 2FA enabled (login
flow only), otherwise issue the JWT pair and persist the refresh row. -/
def _callback_finish (flow : String) (user : UserRec) (isNew : Bool)
    (twofaSessionToken : String) (newChalId : Nat)
    (deviceInfo : Option String) (newRefreshTok : String)
    (newRefreshId now : Nat) (st : OAuthState) : CallbackResult × OAuthState :=
  let cfg? := st.twofaConfigs.find? (fun c => c.user_id == user.id)
  match cfg? with
  | some cfg =>
    if flow ≠ "link" && cfg.is_enabled then
      let chal : TwoFAChallengeRec :=
        { id := newChalId, user_id := user.id,
          token_hash := sha256Hex twofaSessionToken,
          challenge_type := "pending", otp_code_hash := none,
          attempts := 0, max_attempts := 5, used := false,
          expires_at := now + 600 }
      let methods :=
        (if cfg.email_otp_enabled then ["email_otp"] else []) ++
        (if cfg.passkey_enabled then ["passkey"] else []) ++ ["recovery"]
      (.twofaRequired twofaSessionToken methods,
        { st with twofaChallenges := st.twofaChallenges ++ [chal] })
    else
      let access := create_access_token user.id user.role now
      let row := newRefreshRow user.id deviceInfo newRefreshTok newRefreshId now
      (.issued user.id access newRefreshTok isNew,
        { st with refreshTokens := st.refreshTokens ++ [row] })
  | none =>
    let access := create_access_token user.id user.role now
    let row := newRefreshRow user.id deviceInfo newRefreshTok newRefreshId now
    (.issued user.id access newRefreshTok isNew,
      { st with refreshTokens := st.refreshTokens ++ [row] })

/-- Updating provider_user_id, provider_email and profile_data on the
row object returned by the (user_id, provider) lookup. -/
def updateFirstUserProviderLink (uid : Nat) (provider puid : String)
    (email profile : Option String) :
    List OAuthAccountRec → List OAuthAccountRec
  | [] => []
  | a :: as_ =>
    if a.user_id == uid && a.provider == provider then
      { a with provider_user_id := puid, provider_email := email,
               profile_data := profile } :: as_
    else a :: updateFirstUserProviderLink uid provider puid email profile as_

/-- The account update-or-insert of the link flow: reuse the row the
user already holds for the provider, otherwise insert a fresh link. -/
def _link_upsert (provider puid : String) (uid : Nat)
    (email profile : Option String) (newLinkId : Nat)
    (st : OAuthState) : OAuthState :=
  match st.oauthAccounts.find? (fun a => a.user_id == uid && a.provider == provider) with
  | some _ =>
    { st with oauthAccounts :=
        updateFirstUserProviderLink uid provider puid email profile st.oauthAccounts }
  | none =>
    let newLink : OAuthAccountRec :=
      { id := newLinkId, user_id := uid, provider := provider,
        provider_user_id := puid, provider_email := email,
        profile_data := profile }
    { st with oauthAccounts := st.oauthAccounts ++ [newLink] }

/-- The link-flow branch of oauth_callback: requires the link session
user, rejects a provider identity already linked to a different user,
then updates or inserts the OAuthAccount row for (user, provider). -/
def _callback_link_flow (provider puid : String) (linkUserId : Option Nat)
    (email profile : Option String) (newLinkId : Nat)
    (twofaSessionToken : String) (newChalId : Nat)
    (deviceInfo : Option String) (newRefreshTok : String)
    (newRefreshId now : Nat) (st : OAuthState) : CallbackResult × OAuthState :=
  let linkUser? : Option UserRec :=
    match linkUserId with
    | some luid => st.users.find? (fun u => u.id == luid)
    | none => none
  match linkUser? with
  | none => (.invalidLinkSession, st)
  | some linkUser =>
    let existing? := st.oauthAccounts.find? (linkMatch provider puid)
    match existing? with
    | some ex =>
      if ex.user_id ≠ linkUser.id then (.linkConflict, st)
      else
        let st1 := _link_upsert provider puid linkUser.id email profile newLinkId st
        _callback_finish "link" linkUser false twofaSessionToken newChalId
          deviceInfo newRefreshTok newRefreshId now st1
    | none =>
      let st1 := _link_upsert provider puid linkUser.id email profile newLinkId st
      _callback_finish "link" linkUser false twofaSessionToken newChalId
        deviceInfo newRefreshTok newRefreshId now st1

/-- Embedding of app.py oauth_callback from the point where the provider ID token
has been obtained and its signature verified against the provider JWKS
(the earlier steps are provider-enabled and state checks plus external
HTTP exchanges): validate issuer, audience, nonce and the
email_verified claim, extract the subject, then run the link flow or
resolve the user and finish by opening a 2FA challenge or issuing
tokens. Every rejection leaves the stores untouched. -/
def oauth_callback_core (provider clientId : String)
    (metadataIssuer : Option String) (statePayload : StatePayload)
    (claims : IdClaims) (autoRegister : Bool)
    (newUserId newDbId newLinkId : Nat)
    (twofaSessionToken : String) (newChalId : Nat)
    (deviceInfo : Option String) (newRefreshTok : String)
    (newRefreshId now : Nat) (st : OAuthState) : CallbackResult × OAuthState :=
  if claims.iss ≠ metadataIssuer then (.issuerMismatch, st)
  else if audienceMismatchB clientId claims.aud then (.audienceMismatch, st)
  else if statePayload.id_token_nonce ≠ "" &&
      claims.nonce ≠ some statePayload.id_token_nonce then
    (.nonceMismatch, st)
  else if claims.email ≠ none && !emailVerifiedTruthy claims.email_verified then
    (.emailNotVerified, st)
  else
    let email := normalizeEmail claims.email
    match claims.sub with
    | none => (.noSubject, st)
    | some puid =>
      if puid = "" then (.noSubject, st)
      else if statePayload.flow = "link" then
        _callback_link_flow provider puid statePayload.link_user_id email
          claims.profile newLinkId twofaSessionToken newChalId deviceInfo
          newRefreshTok newRefreshId now st
      else
        match _resolve_oauth_user provider puid email claims.profile autoRegister
            newUserId newDbId newLinkId now st with
        | ((user?, isNew, error?), st1) =>
          match error? with
          | some msg => (.resolveError msg, st1)
          | none =>
            match user? with
            | none => (.resolveFailed, st1)
            | some user =>
              _callback_finish statePayload.flow user isNew twofaSessionToken
                newChalId deviceInfo newRefreshTok newRefreshId now st1

/-! Helper lemmas about the first-matching-row update functions. -/

theorem find?_append_cons {α} (p : α → Bool) (l1 : List α) (r : α) (l2 : List α)
    (h1 : ∀ x ∈ l1, p x = false) (hr : p r = true) :
    (l1 ++ r :: l2).find? p = some r := by
  induction l1 with
  | nil => simp [List.find?_cons_of_pos, hr]
  | cons a l ih =>
    have ha : p a = false := h1 a (by simp)
    rw [List.cons_append, List.find?_cons_of_neg _ (by simp [ha])]
    exact ih (fun x hx => h1 x (by simp [hx]))

theorem revokeFirstActive_append_cons (h : String) (l1 : List RefreshTokenRec)
    (r : RefreshTokenRec) (l2 : List RefreshTokenRec)
    (h1 : ∀ x ∈ l1, refreshMatch h x = false) (hr : refreshMatch h r = true) :
    revokeFirstActive h (l1 ++ r :: l2) = l1 ++ { r with revoked := true } :: l2 := by
  induction l1 with
  | nil => simp [revokeFirstActive, hr]
  | cons a l ih =>
    have ha : refreshMatch h a = false := h1 a (by simp)
    simp only [List.cons_append, revokeFirstActive, ha, Bool.false_eq_true, if_false,
      List.append_eq]
    rw [ih (fun x hx => h1 x (by simp [hx]))]

theorem revokeFirstActive_no_active (h : String) (l : List RefreshTokenRec)
    (hU : (l.map RefreshTokenRec.token_hash).Nodup) :
    ∀ x ∈ revokeFirstActive h l, refreshMatch h x = false := by
  induction l with
  | nil => simp [revokeFirstActive]
  | cons a l ih =>
    have hU1 : (l.map RefreshTokenRec.token_hash).Nodup := (List.nodup_cons.mp hU).2
    have hUa : a.token_hash ∉ l.map RefreshTokenRec.token_hash := (List.nodup_cons.mp hU).1
    by_cases pa : refreshMatch h a = true
    · have hah : a.token_hash = h := by
        have hpa := pa
        simp [refreshMatch] at hpa
        exact hpa.1
      simp only [revokeFirstActive, pa, if_true]
      intro x hx
      rcases List.mem_cons.mp hx with hx | hx
      · subst hx
        unfold refreshMatch
        simp
      · unfold refreshMatch
        have : x.token_hash ≠ h := by
          intro hxh
          exact hUa (by rw [← hah] at hxh; exact hxh ▸ List.mem_map_of_mem _ hx)
        simp [this]
    · simp only [revokeFirstActive, pa, if_false]
      intro x hx
      rcases List.mem_cons.mp hx with hx | hx
      · subst hx; simpa using pa
      · exact ih hU1 x hx

theorem revokeFirstByHash_all (h : String) (l : List RefreshTokenRec)
    (hU : (l.map RefreshTokenRec.token_hash).Nodup) :
    ∀ r ∈ revokeFirstByHash h l, r.token_hash = h → r.revoked = true := by
  induction l with
  | nil => simp [revokeFirstByHash]
  | cons a l ih =>
    have hU1 : (l.map RefreshTokenRec.token_hash).Nodup := (List.nodup_cons.mp hU).2
    have hUa : a.token_hash ∉ l.map RefreshTokenRec.token_hash := (List.nodup_cons.mp hU).1
    by_cases pa : a.token_hash == h
    · have hah : a.token_hash = h := eq_of_beq pa
      simp only [revokeFirstByHash, pa, if_true]
      intro r hr hrh
      rcases List.mem_cons.mp hr with hr | hr
      · subst hr; rfl
      · exact absurd (by rw [← hah] at hrh; exact hrh ▸ List.mem_map_of_mem _ hr) hUa
    · simp only [revokeFirstByHash, pa, if_false]
      intro r hr hrh
      rcases List.mem_cons.mp hr with hr | hr
      · subst hr; exact absurd (beq_iff_eq.mpr hrh) (by simpa using pa)
      · exact ih hU1 r hr hrh

theorem revokeFirstByHash_idem (h : String) (l : List RefreshTokenRec) :
    revokeFirstByHash h (revokeFirstByHash h l) = revokeFirstByHash h l := by
  induction l with
  | nil => rfl
  | cons a l ih =>
    by_cases pa : a.token_hash == h
    · simp [revokeFirstByHash, pa]
    · simp [revokeFirstByHash, pa, ih]

/-- Claim C8: verify_refresh_token is self-healing with an exact frame:
when the presented token resolves to the unique active row and that row
has expired, the function returns none and flips exactly the revoked
flag of that row, leaving every other field and row unchanged; when no
active row matches (the token is unknown, or its row is already
revoked), it returns none and changes nothing. -/
theorem verify_refresh_token_frame (token : String) (now : Nat)
    (tokens : List RefreshTokenRec) :
    (∀ l1 r l2, tokens = l1 ++ r :: l2 →
      (∀ x ∈ l1, refreshMatch (sha256Hex token) x = false) →
      refreshMatch (sha256Hex token) r = true →
      r.expires_at < now →
      verify_refresh_token token now tokens =
        (none, l1 ++ { r with revoked := true } :: l2)) ∧
    (tokens.find? (refreshMatch (sha256Hex token)) = none →
      verify_refresh_token token now tokens = (none, tokens)) := by
  constructor
  · intro l1 r l2 hdec h1 hr hexp
    subst hdec
    unfold verify_refresh_token
    rw [find?_append_cons _ l1 r l2 h1 hr]
    simp only [hexp, if_true]
    rw [revokeFirstActive_append_cons _ l1 r l2 h1 hr]
  · intro hnone
    unfold verify_refresh_token
    rw [hnone]

/-- Witness for claim C8 at a concrete store: an expired active row is
revoked in place, and an unknown token leaves the store unchanged. -/
theorem verify_refresh_token_frame_witness :
    verify_refresh_token "tokA" 1000
        [{ id := 1, user_id := 7, token_hash := sha256Hex "tokA", expires_at := 500,
           revoked := false, created_at := 0, device_info := none }] =
      (none,
        [{ id := 1, user_id := 7, token_hash := sha256Hex "tokA", expires_at := 500,
           revoked := true, created_at := 0, device_info := none }]) ∧
    verify_refresh_token "tokB" 1000
        [{ id := 1, user_id := 7, token_hash := sha256Hex "tokA", expires_at := 500,
           revoked := false, created_at := 0, device_info := none }] =
      (none,
        [{ id := 1, user_id := 7, token_hash := sha256Hex "tokA", expires_at := 500,
           revoked := false, created_at := 0, device_info := none }]) := by
  constructor
  · exact (verify_refresh_token_frame "tokA" 1000 _).1 [] _ [] rfl (by simp)
      (by decide) (by decide)
  · exact (verify_refresh_token_frame "tokB" 1000 _).2 (by decide)

/-- Claim C9: rotation is atomic under persistence failure. When
create_refresh_token fails to commit inside POST /auth/refresh, the
rollback also undoes the uncommitted revocation of the presented row:
the committed store is exactly the store the request started from, and
the presented token is still redeemable (its row active and
unexpired). -/
theorem jwt_refresh_rollback (tok : String) (now : Nat) (users : List UserRec)
    (newTok : String) (newId : Nat) (tokens : List RefreshTokenRec)
    (h : (jwt_refresh (some tok) none now users newTok newId false tokens).1 =
      .serverError) :
    (jwt_refresh (some tok) none now users newTok newId false tokens).2 = tokens ∧
    ∃ r, (verify_refresh_token tok now tokens).1 = some r ∧
      r.revoked = false ∧ ¬ r.expires_at < now := by
  by_cases ht : tok = ""
  · subst ht
    simp [jwt_refresh, _get_refresh_token_from_request] at h
  · have hreq : _get_refresh_token_from_request (some tok) none = some tok := by
      simp [_get_refresh_token_from_request, ht]
    rcases hv : verify_refresh_token tok now tokens with ⟨_ | stored, t1⟩
    · simp [jwt_refresh, hreq, ht, hv] at h
    · rcases hu : users.find? (fun u => u.id == stored.user_id) with _ | user
      · simp [jwt_refresh, hreq, ht, hv, hu] at h
      · have hfacts : tokens.find? (refreshMatch (sha256Hex tok)) = some stored ∧
            ¬ stored.expires_at < now ∧ t1 = tokens := by
          unfold verify_refresh_token at hv
          rcases hf : tokens.find? (refreshMatch (sha256Hex tok)) with _ | r
          · rw [hf] at hv; simp at hv
          · rw [hf] at hv
            by_cases he : r.expires_at < now
            · simp [he] at hv
            · simp [he] at hv
              obtain ⟨h1, h2⟩ := hv
              subst h1
              subst h2
              exact ⟨rfl, he, rfl⟩
        obtain ⟨hf, hnexp, ht1⟩ := hfacts
        refine ⟨?_, stored, ?_, ?_, hnexp⟩
        · simp [jwt_refresh, hreq, ht, hv, hu, create_refresh_token, ht1]
        · rfl
        · have hp := List.find?_some hf
          simp [refreshMatch] at hp
          exact hp.2

/-- Witness for claim C9: a concrete failed-commit rotation leaves the
single-row store untouched and the token verifiable. -/
theorem jwt_refresh_rollback_witness :
    (jwt_refresh (some "tokA") none 1000
        [{ id := 7, username := "u", email := none, email_verified_at := none,
           role := "user" }] "tokB" 2 false
        [{ id := 1, user_id := 7, token_hash := sha256Hex "tokA", expires_at := 5000,
           revoked := false, created_at := 0, device_info := none }]).2 =
      [{ id := 1, user_id := 7, token_hash := sha256Hex "tokA", expires_at := 5000,
         revoked := false, created_at := 0, device_info := none }] ∧
    ∃ r, (verify_refresh_token "tokA" 1000
        [{ id := 1, user_id := 7, token_hash := sha256Hex "tokA", expires_at := 5000,
           revoked := false, created_at := 0, device_info := none }]).1 = some r ∧
      r.revoked = false ∧ ¬ r.expires_at < 1000 :=
  jwt_refresh_rollback "tokA" 1000
    [{ id := 7, username := "u", email := none, email_verified_at := none,
       role := "user" }] "tokB" 2
    [{ id := 1, user_id := 7, token_hash := sha256Hex "tokA", expires_at := 5000,
       revoked := false, created_at := 0, device_info := none }] (by decide)

/-- Claim C10: POST /auth/logout always answers HTTP 200 success with
the refresh cookie cleared; when the presented token has a stored row
that row ends up revoked; and repeating the same logout leaves the
store exactly as after the first call. -/
theorem jwt_logout_idempotent_total (body cookie : Option String)
    (tokens : List RefreshTokenRec)
    (hU : (tokens.map RefreshTokenRec.token_hash).Nodup) :
    (jwt_logout body cookie tokens).1 =
      { status := 200, success := true, cookieCleared := true } ∧
    (∀ t, _get_refresh_token_from_request body cookie = some t → t ≠ "" →
      ∀ r ∈ (jwt_logout body cookie tokens).2, r.token_hash = sha256Hex t →
        r.revoked = true) ∧
    jwt_logout body cookie (jwt_logout body cookie tokens).2 =
      jwt_logout body cookie tokens := by
  rcases hreq : _get_refresh_token_from_request body cookie with _ | t
  · simp [jwt_logout, hreq]
  · by_cases ht : t = ""
    · subst ht; simp [jwt_logout, hreq]
    · refine ⟨?_, ?_, ?_⟩
      · simp [jwt_logout, hreq, ht]
      · intro t' ht' _ r hr hrh
        obtain rfl : t = t' := by injection ht'
        have h2 : (jwt_logout body cookie tokens).2 =
            revokeFirstByHash (sha256Hex t) tokens := by
          simp [jwt_logout, hreq, ht]
        rw [h2] at hr
        exact revokeFirstByHash_all _ tokens hU r hr hrh
      · simp [jwt_logout, hreq, ht, revokeFirstByHash_idem]

/-- Witness for claim C10 at a concrete store holding one revoked and
one active row for distinct hashes. -/
theorem jwt_logout_idempotent_total_witness :
    (jwt_logout (some "tokA") none
        [{ id := 1, user_id := 7, token_hash := sha256Hex "tokA", expires_at := 5000,
           revoked := false, created_at := 0, device_info := none },
         { id := 2, user_id := 7, token_hash := sha256Hex "tokB", expires_at := 5000,
           revoked := true, created_at := 0, device_info := none }]).1 =
      { status := 200, success := true, cookieCleared := true } ∧
    (∀ t, _get_refresh_token_from_request (some "tokA") none = some t → t ≠ "" →
      ∀ r ∈ (jwt_logout (some "tokA") none
          [{ id := 1, user_id := 7, token_hash := sha256Hex "tokA", expires_at := 5000,
             revoked := false, created_at := 0, device_info := none },
           { id := 2, user_id := 7, token_hash := sha256Hex "tokB", expires_at := 5000,
             revoked := true, created_at := 0, device_info := none }]).2,
        r.token_hash = sha256Hex t → r.revoked = true) ∧
    jwt_logout (some "tokA") none
        ((jwt_logout (some "tokA") none
          [{ id := 1, user_id := 7, token_hash := sha256Hex "tokA", expires_at := 5000,
             revoked := false, created_at := 0, device_info := none },
           { id := 2, user_id := 7, token_hash := sha256Hex "tokB", expires_at := 5000,
             revoked := true, created_at := 0, device_info := none }]).2) =
      jwt_logout (some "tokA") none
        [{ id := 1, user_id := 7, token_hash := sha256Hex "tokA", expires_at := 5000,
           revoked := false, created_at := 0, device_info := none },
         { id := 2, user_id := 7, token_hash := sha256Hex "tokB", expires_at := 5000,
           revoked := true, created_at := 0, device_info := none }] :=
  jwt_logout_idempotent_total (some "tokA") none
    [{ id := 1, user_id := 7, token_hash := sha256Hex "tokA", expires_at := 5000,
       revoked := false, created_at := 0, device_info := none },
     { id := 2, user_id := 7, token_hash := sha256Hex "tokB", expires_at := 5000,
       revoked := true, created_at := 0, device_info := none }] (by decide)

/-- Claim C1: refresh-token rotation is one-shot. If a rotation through
POST /auth/refresh succeeded on token T, presenting T again (at any
later time, against any user table, with any commit behaviour) answers
the 401 invalid-or-expired rejection, issues no tokens, and leaves the
store untouched. The hypotheses record the unique constraint on
token_hash and that the freshly generated plaintext differs from the
presented one. -/
theorem refresh_rotation_one_shot (tok newTok : String) (now now2 : Nat)
    (users users2 : List UserRec) (newTok2 : String) (newId newId2 : Nat)
    (commitOk2 : Bool) (tokens : List RefreshTokenRec)
    (a : AccessClaims) (nr : String)
    (hU : (tokens.map RefreshTokenRec.token_hash).Nodup)
    (hne : newTok ≠ tok)
    (h1 : (jwt_refresh (some tok) none now users newTok newId true tokens).1 =
      .issued a nr) :
    (jwt_refresh (some tok) none now2 users2 newTok2 newId2 commitOk2
        (jwt_refresh (some tok) none now users newTok newId true tokens).2).1 =
      .invalidToken ∧
    (jwt_refresh (some tok) none now2 users2 newTok2 newId2 commitOk2
        (jwt_refresh (some tok) none now users newTok newId true tokens).2).2 =
      (jwt_refresh (some tok) none now users newTok newId true tokens).2 ∧
    RefreshOutcome.invalidToken.status = 401 := by
  by_cases ht : tok = ""
  · subst ht
    simp [jwt_refresh, _get_refresh_token_from_request] at h1
  · have hreq : _get_refresh_token_from_request (some tok) none = some tok := by
      simp [_get_refresh_token_from_request, ht]
    rcases hv : verify_refresh_token tok now tokens with ⟨_ | stored, t1⟩
    · simp [jwt_refresh, hreq, ht, hv] at h1
    · rcases hu : users.find? (fun u => u.id == stored.user_id) with _ | user
      · simp [jwt_refresh, hreq, ht, hv, hu] at h1
      · have ht1 : t1 = tokens := by
          unfold verify_refresh_token at hv
          rcases hf : tokens.find? (refreshMatch (sha256Hex tok)) with _ | r
          · rw [hf] at hv; simp at hv
          · rw [hf] at hv
            by_cases he : r.expires_at < now
            · simp [he] at hv
            · simp [he] at hv
              exact hv.2.symm
        subst t1
        have hstore : (jwt_refresh (some tok) none now users newTok newId true
            tokens).2 =
            revokeFirstActive (sha256Hex tok) tokens ++
              [newRefreshRow user.id stored.device_info newTok newId now] := by
          simp [jwt_refresh, hreq, ht, hv, hu, create_refresh_token]
        have hnone : (revokeFirstActive (sha256Hex tok) tokens ++
            [newRefreshRow user.id stored.device_info newTok newId now]).find?
              (refreshMatch (sha256Hex tok)) = none := by
          rw [List.find?_eq_none]
          intro x hx
          rcases List.mem_append.mp hx with hx | hx
          · simp [revokeFirstActive_no_active (sha256Hex tok) tokens hU x hx]
          · have hx1 : x = newRefreshRow user.id stored.device_info newTok newId now := by
              simpa using hx
            subst hx1
            intro hcontra
            have hh : sha256Hex newTok = sha256Hex tok := by
              have hc := hcontra
              simp [refreshMatch, newRefreshRow] at hc
              exact hc
            exact hne (sha256Hex_injective hh)
        have hv2 : verify_refresh_token tok now2
            (revokeFirstActive (sha256Hex tok) tokens ++
              [newRefreshRow user.id stored.device_info newTok newId now]) =
            (none, revokeFirstActive (sha256Hex tok) tokens ++
              [newRefreshRow user.id stored.device_info newTok newId now]) := by
          unfold verify_refresh_token
          rw [hnone]
        refine ⟨?_, ?_, rfl⟩
        · rw [hstore]
          simp [jwt_refresh, hreq, ht, hv2]
        · rw [hstore]
          simp [jwt_refresh, hreq, ht, hv2]

/-- Witness for claim C1: rotating a concrete token once and replaying
it. -/
theorem refresh_rotation_one_shot_witness :
    (jwt_refresh (some "tokA") none 2000 [] "tokB2" 3 true
        (jwt_refresh (some "tokA") none 1000
          [{ id := 7, username := "u", email := none, email_verified_at := none,
             role := "user" }] "tokB" 2 true
          [{ id := 1, user_id := 7, token_hash := sha256Hex "tokA", expires_at := 5000,
             revoked := false, created_at := 0, device_info := none }]).2).1 =
      .invalidToken ∧
    (jwt_refresh (some "tokA") none 2000 [] "tokB2" 3 true
        (jwt_refresh (some "tokA") none 1000
          [{ id := 7, username := "u", email := none, email_verified_at := none,
             role := "user" }] "tokB" 2 true
          [{ id := 1, user_id := 7, token_hash := sha256Hex "tokA", expires_at := 5000,
             revoked := false, created_at := 0, device_info := none }]).2).2 =
      (jwt_refresh (some "tokA") none 1000
          [{ id := 7, username := "u", email := none, email_verified_at := none,
             role := "user" }] "tokB" 2 true
          [{ id := 1, user_id := 7, token_hash := sha256Hex "tokA", expires_at := 5000,
             revoked := false, created_at := 0, device_info := none }]).2 ∧
    RefreshOutcome.invalidToken.status = 401 :=
  refresh_rotation_one_shot "tokA" "tokB" 1000 2000
    [{ id := 7, username := "u", email := none, email_verified_at := none,
       role := "user" }] [] "tokB2" 2 3 true
    [{ id := 1, user_id := 7, token_hash := sha256Hex "tokA", expires_at := 5000,
       revoked := false, created_at := 0, device_info := none }]
    (create_access_token 7 "user" 1000) "tokB" (by decide) (by decide) (by decide)

/-- Claim C2: OAuth state tokens are replay-protected independently of
expiry. Once a generated state token has been accepted by
_verify_oauth_state, its state_nonce is recorded with an eviction
deadline of 600 seconds, and every later verification of the same token
is rejected: within the 5-minute validity window the recorded nonce
cannot have been evicted (the 600-second deadline, set at or after
generation, outlives the 300-second token expiry) even when
_cleanup_used_nonces runs in between, and past the window the token is
expired anyway. -/
theorem verify_oauth_state_accept (tok : StatePayload) (now : Nat) (st : NonceState)
    (h1 : ¬ tok.exp ≤ now) (h2 : tok.typ = "oauth_state") (h3 : ¬ tok.state_nonce = "")
    (h4 : ((_cleanup_used_nonces now st).used.any
      (fun p => p.1 == tok.state_nonce)) = false) :
    _verify_oauth_state tok now st =
      (some tok, { _cleanup_used_nonces now st with
        used := (tok.state_nonce, now + 600) :: (_cleanup_used_nonces now st).used }) := by
  simp [_verify_oauth_state, h1, h2, h3, h4]

theorem verify_oauth_state_expired (tok : StatePayload) (now : Nat) (st : NonceState)
    (h : tok.exp ≤ now) : (_verify_oauth_state tok now st).1 = none := by
  simp [_verify_oauth_state, h]

theorem verify_oauth_state_replay (tok : StatePayload) (now : Nat) (st : NonceState)
    (h1 : ¬ tok.exp ≤ now) (h2 : tok.typ = "oauth_state") (h3 : ¬ tok.state_nonce = "")
    (h4 : ((_cleanup_used_nonces now st).used.any
      (fun p => p.1 == tok.state_nonce)) = true) :
    (_verify_oauth_state tok now st).1 = none := by
  simp [_verify_oauth_state, h1, h2, h3, h4]

theorem verify_oauth_state_some_inv (tok : StatePayload) (now : Nat) (st : NonceState)
    (hacc : ((_verify_oauth_state tok now st).1).isSome) :
    ¬ tok.exp ≤ now ∧ tok.typ = "oauth_state" ∧ ¬ tok.state_nonce = "" ∧
    ((_cleanup_used_nonces now st).used.any
      (fun p => p.1 == tok.state_nonce)) = false := by
  by_cases h1 : tok.exp ≤ now
  · simp [_verify_oauth_state, h1] at hacc
  · by_cases h2 : tok.typ = "oauth_state"
    · by_cases h3 : tok.state_nonce = ""
      · simp [_verify_oauth_state, h1, h2, h3] at hacc
      · by_cases h4 : ((_cleanup_used_nonces now st).used.any
            (fun p => p.1 == tok.state_nonce)) = true
        · simp [_verify_oauth_state, h1, h2, h3, h4] at hacc
        · exact ⟨h1, h2, h3, Bool.eq_false_iff.mpr h4⟩
    · simp [_verify_oauth_state, h1, h2] at hacc

theorem mem_cleanup_of_mem (now : Nat) (st : NonceState) (p : String × Nat)
    (hp : p ∈ st.used) (hlive : ¬ p.2 < now) :
    p ∈ (_cleanup_used_nonces now st).used := by
  unfold _cleanup_used_nonces
  by_cases hint : now < st.lastCleanup + 300
  · simp only [hint, if_true]
    exact hp
  · simp only [hint, if_false]
    exact List.mem_filter.mpr ⟨hp, by simp [hlive]⟩

theorem oauth_state_one_shot (provider cv idn flow : String) (luid : Option Nat)
    (n : String) (t0 t1 t2 : Nat) (st : NonceState)
    (h01 : t0 ≤ t1) (h12 : t1 ≤ t2)
    (hacc : (_verify_oauth_state
        (_generate_oauth_state provider cv idn flow luid n t0) t1 st).1.isSome) :
    (n, t1 + 600) ∈
      ((_verify_oauth_state
        (_generate_oauth_state provider cv idn flow luid n t0) t1 st).2).used ∧
    (_verify_oauth_state (_generate_oauth_state provider cv idn flow luid n t0) t2
      ((_verify_oauth_state
        (_generate_oauth_state provider cv idn flow luid n t0) t1 st).2)).1 =
      none := by
  obtain ⟨h1e, htyp, h1n, h1m⟩ :=
    verify_oauth_state_some_inv (_generate_oauth_state provider cv idn flow luid n t0)
      t1 st hacc
  have hsn : (_generate_oauth_state provider cv idn flow luid n t0).state_nonce = n :=
    rfl
  have hexp : (_generate_oauth_state provider cv idn flow luid n t0).exp = t0 + 300 :=
    rfl
  have hst' := verify_oauth_state_accept
    (_generate_oauth_state provider cv idn flow luid n t0) t1 st h1e htyp h1n h1m
  rw [hst']
  rw [hsn] at hst' ⊢
  refine ⟨List.mem_cons_self _ _, ?_⟩
  by_cases h2e : (_generate_oauth_state provider cv idn flow luid n t0).exp ≤ t2
  · exact verify_oauth_state_expired _ t2 _ h2e
  · have ht2 : t2 < t0 + 300 := by
      rw [hexp] at h2e; omega
    have hkeep : (n, t1 + 600) ∈
        (_cleanup_used_nonces t2
          { _cleanup_used_nonces t1 st with
            used := (n, t1 + 600) :: (_cleanup_used_nonces t1 st).used }).used := by
      refine mem_cleanup_of_mem t2 _ (n, t1 + 600) (List.mem_cons_self _ _) ?_
      simp only []
      omega
    refine verify_oauth_state_replay _ t2 _ h2e htyp h1n ?_
    rw [List.any_eq_true]
    exact ⟨(n, t1 + 600), hkeep, by simp [hsn]⟩

/-- Witness for claim C2 at concrete times and an empty nonce set. -/
theorem oauth_state_one_shot_witness :
    ("n1", 100 + 600) ∈
      ((_verify_oauth_state
        (_generate_oauth_state "google" "cv" "idn" "login" none "n1" 50) 100
        { used := [], lastCleanup := 0 }).2).used ∧
    (_verify_oauth_state
      (_generate_oauth_state "google" "cv" "idn" "login" none "n1" 50) 200
      ((_verify_oauth_state
        (_generate_oauth_state "google" "cv" "idn" "login" none "n1" 50) 100
        { used := [], lastCleanup := 0 }).2)).1 = none :=
  oauth_state_one_shot "google" "cv" "idn" "login" none "n1" 50 100 200
    { used := [], lastCleanup := 0 } (by decide) (by decide) (by decide)

/-- Claim C4: 2FA attempt lockout. With a valid (present, unexpired,
unused) challenge session: while attempts are below max_attempts, a
wrong email-OTP submission answers the invalid-code error and persists
exactly one attempts increment; once attempts have reached max_attempts,
every verify call — any method, any code, including the correct one —
is short-circuited by the session check to the locked response (HTTP
429) with the store untouched, so no further attempt is consumed. -/
theorem twofa_attempt_lockout (tok : String) (now : Nat)
    (ch : TwoFAChallengeRec) (user : UserRec) (st : TwoFAState)
    (htok : tok ≠ "")
    (hfind : st.challenges.find? (fun c => c.token_hash == sha256Hex tok) = some ch)
    (hnexp : ¬ ch.expires_at < now) (hnused : ch.used = false)
    (huser : st.users.find? (fun u => u.id == ch.user_id) = some user) :
    (∀ code oh, ch.attempts < ch.max_attempts →
      ch.otp_code_hash = some oh → oh ≠ "" → code ≠ "" →
      check_password_hash oh code = false →
      ∀ ep wk sc ntk nid di,
        twofa_verify
          { session_token := some tok, method := "email_otp",
            code := some code, credential_id := none, recovery_code := none,
            device_info := di } now ep wk sc ntk nid st =
          (.invalidCode,
            { st with challenges := bumpAttemptsFirst (sha256Hex tok) st.challenges })) ∧
    (ch.max_attempts ≤ ch.attempts →
      ∀ method code cid rc di ep wk sc ntk nid,
        twofa_verify
          { session_token := some tok, method := method, code := code,
            credential_id := cid, recovery_code := rc, device_info := di }
          now ep wk sc ntk nid st = (.sessionError .locked, st) ∧
        (VerifyOutcome.sessionError .locked).status = 429) := by
  constructor
  · intro code oh hlt hoh hohne hcodene hwrong ep wk sc ntk nid di
    have hsess : _verify_2fa_session (some tok) now st.challenges = .ok ch := by
      simp [_verify_2fa_session, htok, hfind, TwoFAChallengeRec.is_expired, hnexp,
        hnused, Nat.not_le.mpr hlt]
    simp [twofa_verify, hsess, huser, hoh, pyFalsyOpt, hohne, hcodene, hwrong]
  · intro hge method code cid rc di ep wk sc ntk nid
    have hsess : _verify_2fa_session (some tok) now st.challenges = .error .locked := by
      simp [_verify_2fa_session, htok, hfind, TwoFAChallengeRec.is_expired, hnexp,
        hnused, hge]
    exact ⟨by simp [twofa_verify, hsess], rfl⟩

/-- A concrete user fixture used by the 2FA witnesses. -/
def wUser : UserRec :=
  { id := 7, username := "u", email := none, email_verified_at := none,
    role := "user" }

/-- A concrete email-OTP challenge fixture with a given attempts
count. -/
def wChal (att : Nat) : TwoFAChallengeRec :=
  { id := 1, user_id := 7, token_hash := sha256Hex "s1",
    challenge_type := "email_otp",
    otp_code_hash := some (generate_password_hash "123456"),
    attempts := att, max_attempts := 5, used := false, expires_at := 600 }

/-- A concrete 2FA store fixture around wChal. -/
def wState (att : Nat) : TwoFAState :=
  { users := [wUser], challenges := [wChal att], configs := [], creds := [],
    refreshTokens := [] }

/-- A concrete email-OTP verify request fixture. -/
def wReq (code : String) (di : Option String) : VerifyRequest :=
  { session_token := some "s1", method := "email_otp", code := some code,
    credential_id := none, recovery_code := none, device_info := di }

/-- Witness for claim C4: a challenge one attempt short of the limit
rejects the wrong code and counts it; at the limit the correct code is
still answered with the 429 locked rejection and no state change. -/
theorem twofa_attempt_lockout_witness :
    (∀ ep wk sc ntk nid di,
      twofa_verify (wReq "000000" di) 50 ep wk sc ntk nid (wState 4) =
        (.invalidCode, wState 5)) ∧
    (∀ di ep wk sc ntk nid,
      twofa_verify (wReq "123456" di) 50 ep wk sc ntk nid (wState 5) =
        (.sessionError .locked, wState 5)) := by
  constructor
  · intro ep wk sc ntk nid di
    have h := (twofa_attempt_lockout "s1" 50 (wChal 4) wUser (wState 4)
      (by decide) (by decide) (by decide) (by decide) (by decide)).1
      "000000" (generate_password_hash "123456") (by decide) rfl (by decide)
      (by decide) (by decide) ep wk sc ntk nid di
    simp only [wReq]
    rw [h]
    simp [wState, wChal, bumpAttemptsFirst]
  · intro di ep wk sc ntk nid
    exact ((twofa_attempt_lockout "s1" 50 (wChal 5) wUser (wState 5)
      (by decide) (by decide) (by decide) (by decide) (by decide)).2
      (by decide) "email_otp" (some "123456") none none di ep wk sc ntk nid).1

theorem find?_setRecoveryFirst (uid : Nat) (v : Option (List String))
    (cfgs : List TwoFAConfigRec) (config : TwoFAConfigRec)
    (h : cfgs.find? (fun c => c.user_id == uid) = some config) :
    (setRecoveryFirst uid v cfgs).find? (fun c => c.user_id == uid) =
      some { config with recovery_codes_hash := v } := by
  induction cfgs with
  | nil => simp at h
  | cons a l ih =>
    by_cases pa : (a.user_id == uid) = true
    · rw [List.find?_cons] at h
      simp only [pa] at h
      injection h with h
      subst h
      simp only [setRecoveryFirst, pa, if_true]
      rw [List.find?_cons]
      simp [pa]
    · rw [List.find?_cons] at h
      simp only [pa] at h
      simp only [setRecoveryFirst, pa, Bool.false_eq_true, if_false]
      rw [List.find?_cons]
      simp only [pa]
      exact ih h

/-- The vanilla recovery-method request body of POST /auth/2fa/verify. -/
def mkRecoveryReq (tok code : String) (di : Option String) : VerifyRequest :=
  { session_token := some tok, method := "recovery", code := none,
    credential_id := none, recovery_code := some code, device_info := di }

/-- A fresh pending challenge row as issued for a new 2FA session. -/
def freshChal (chid uid : Nat) (tok2 : String) (exp2 : Nat) : TwoFAChallengeRec :=
  { id := chid, user_id := uid, token_hash := sha256Hex tok2,
    challenge_type := "pending", otp_code_hash := none, attempts := 0,
    max_attempts := 5, used := false, expires_at := exp2 }

/-- Claim C3: recovery codes are single-use by removal. When the
upper-cased supplied code matches a stored hash (uniquely, as generated
codes do), verification succeeds and the resulting store differs
exactly by removal of the matched hash from the persisted list, the
challenge being marked used and the fresh token row; a subsequent
verify against a fresh challenge with the same code finds no matching
hash and answers the invalid-recovery-code error. -/
theorem recovery_code_single_use (tok tok2 code : String) (now now2 : Nat)
    (ch : TwoFAChallengeRec) (user : UserRec) (config : TwoFAConfigRec)
    (hashes : List String) (idx : Nat) (st : TwoFAState)
    (ep wk : Bool) (sc : Nat) (ntk ntk2 : String) (nid nid2 : Nat)
    (di di2 : Option String) (chid exp2 : Nat)
    (htok : tok ≠ "") (htok2 : tok2 ≠ "") (hcode : code ≠ "")
    (hfind : st.challenges.find? (fun c => c.token_hash == sha256Hex tok) = some ch)
    (hnexp : ¬ ch.expires_at < now) (hnused : ch.used = false)
    (hnlock : ch.attempts < ch.max_attempts)
    (huser : st.users.find? (fun u => u.id == ch.user_id) = some user)
    (hconf : st.configs.find? (fun c => c.user_id == ch.user_id) = some config)
    (hhashes : config.recovery_codes_hash = some hashes)
    (hidx : hashes.findIdx? (fun hh => check_password_hash hh (pyUpper code)) = some idx)
    (honly : ∀ hh ∈ hashes.eraseIdx idx, check_password_hash hh (pyUpper code) = false)
    (hnexp2 : ¬ exp2 < now2) :
    twofa_verify (mkRecoveryReq tok code di) now ep wk sc ntk nid st =
      (.issued (create_access_token user.id user.role now) ntk,
        { st with
            configs := setRecoveryFirst ch.user_id
              (some (hashes.eraseIdx idx)) st.configs,
            challenges := markUsedFirst (sha256Hex tok) st.challenges,
            refreshTokens := st.refreshTokens ++
              [newRefreshRow user.id di ntk nid now] }) ∧
    twofa_verify (mkRecoveryReq tok2 code di2) now2 ep wk sc ntk2 nid2
      { st with
          configs := setRecoveryFirst ch.user_id
            (some (hashes.eraseIdx idx)) st.configs,
          challenges := freshChal chid ch.user_id tok2 exp2 ::
            markUsedFirst (sha256Hex tok) st.challenges,
          refreshTokens := st.refreshTokens ++
            [newRefreshRow user.id di ntk nid now] } =
      (.invalidRecoveryCode,
        { st with
            configs := setRecoveryFirst ch.user_id
              (some (hashes.eraseIdx idx)) st.configs,
            challenges := bumpAttemptsFirst (sha256Hex tok2)
              (freshChal chid ch.user_id tok2 exp2 ::
                markUsedFirst (sha256Hex tok) st.challenges),
            refreshTokens := st.refreshTokens ++
              [newRefreshRow user.id di ntk nid now] }) := by
  constructor
  · have hsess : _verify_2fa_session (some tok) now st.challenges = .ok ch := by
      simp [_verify_2fa_session, htok, hfind, TwoFAChallengeRec.is_expired, hnexp,
        hnused, Nat.not_le.mpr hnlock]
    simp [twofa_verify, mkRecoveryReq, hsess, huser, pyFalsyOpt, hcode, hconf,
      hhashes, hidx, issueAfter2FA]
  · have e1 : (freshChal chid ch.user_id tok2 exp2).expires_at = exp2 := rfl
    have e2 : (freshChal chid ch.user_id tok2 exp2).used = false := rfl
    have e3 : (freshChal chid ch.user_id tok2 exp2).attempts = 0 := rfl
    have e4 : (freshChal chid ch.user_id tok2 exp2).max_attempts = 5 := rfl
    have e5 : (freshChal chid ch.user_id tok2 exp2).user_id = ch.user_id := rfl
    have hfind2 : (freshChal chid ch.user_id tok2 exp2 ::
        markUsedFirst (sha256Hex tok) st.challenges).find?
          (fun c => c.token_hash == sha256Hex tok2) =
        some (freshChal chid ch.user_id tok2 exp2) := by
      rw [List.find?_cons]
      have e6 : (freshChal chid ch.user_id tok2 exp2).token_hash = sha256Hex tok2 :=
        rfl
      simp [e6]
    have hsess2 : _verify_2fa_session (some tok2) now2
        (freshChal chid ch.user_id tok2 exp2 ::
          markUsedFirst (sha256Hex tok) st.challenges) =
        .ok (freshChal chid ch.user_id tok2 exp2) := by
      simp [_verify_2fa_session, htok2, hfind2, TwoFAChallengeRec.is_expired,
        e1, e2, e3, e4, hnexp2]
    have hconf2 : (setRecoveryFirst ch.user_id (some (hashes.eraseIdx idx))
        st.configs).find? (fun c => c.user_id == ch.user_id) =
        some { config with recovery_codes_hash := some (hashes.eraseIdx idx) } :=
      find?_setRecoveryFirst ch.user_id _ st.configs config hconf
    have hnone : (hashes.eraseIdx idx).findIdx?
        (fun hh => check_password_hash hh (pyUpper code)) = none := by
      rw [List.findIdx?_eq_none_iff]
      intro x hx
      exact honly x hx
    simp [twofa_verify, mkRecoveryReq, hsess2, e5, huser, pyFalsyOpt, hcode,
      hconf2, hnone]

/-- A concrete 2FA config fixture holding one recovery-code hash. -/
def wCfg : TwoFAConfigRec :=
  { user_id := 7, email_otp_enabled := true, passkey_enabled := false,
    recovery_codes_hash := some [generate_password_hash "AB12CD34"] }

/-- A concrete 2FA store fixture for the recovery witness. -/
def wState3 : TwoFAState :=
  { users := [wUser], challenges := [wChal 0], configs := [wCfg], creds := [],
    refreshTokens := [] }

/-- Witness for claim C3: consuming the only recovery code succeeds
once and the same code presented against a fresh challenge is rejected
as invalid. -/
theorem recovery_code_single_use_witness :
    (twofa_verify (mkRecoveryReq "s1" "ab12cd34" none) 50 false false 0 "r1" 1
      wState3).1 = .issued (create_access_token 7 "user" 50) "r1" ∧
    (twofa_verify (mkRecoveryReq "s2" "ab12cd34" none) 60 false false 0 "r2" 2
      { wState3 with
          configs := setRecoveryFirst 7
            (some ([generate_password_hash "AB12CD34"].eraseIdx 0)) wState3.configs,
          challenges := freshChal 9 7 "s2" 700 ::
            markUsedFirst (sha256Hex "s1") wState3.challenges,
          refreshTokens := wState3.refreshTokens ++
            [newRefreshRow 7 none "r1" 1 50] }).1 = .invalidRecoveryCode := by
  have h := recovery_code_single_use "s1" "s2" "ab12cd34" 50 60 (wChal 0) wUser wCfg
    [generate_password_hash "AB12CD34"] 0 wState3 false false 0 "r1" "r2" 1 2
    none none 9 700
    (by decide) (by decide) (by decide) (by decide) (by decide) (by decide)
    (by decide) (by decide) (by decide) (by decide) (by decide) (by decide)
    (by decide)
  exact ⟨congrArg Prod.fst h.1, congrArg Prod.fst h.2⟩

/-- Claim C5: auto-link safety in _resolve_oauth_user. With no existing
link for (provider, provider_user_id) and a local user matching the
claimed email: if that account has email_verified_at set, exactly one
new OAuthAccount link is appended and the user returned with no error;
if the email is unverified, no link is created, no user is returned,
and the actionable error message is returned with the stores
untouched. -/
theorem oauth_auto_link_safety (provider puid e : String)
    (profile : Option String) (autoRegister : Bool)
    (nuid ndb nlink now : Nat) (u : UserRec) (st : OAuthState)
    (he : e ≠ "")
    (hnolink : st.oauthAccounts.find? (linkMatch provider puid) = none)
    (hfind : st.users.find? (emailMatch e) = some u) :
    (u.email_verified_at.isSome = true →
      _resolve_oauth_user provider puid (some e) profile autoRegister
          nuid ndb nlink now st =
        ((some u, false, none),
          { st with oauthAccounts := st.oauthAccounts ++
              [{ id := nlink, user_id := u.id, provider := provider,
                 provider_user_id := puid, provider_email := some e,
                 profile_data := profile }] })) ∧
    (u.email_verified_at = none →
      _resolve_oauth_user provider puid (some e) profile autoRegister
          nuid ndb nlink now st =
        ((none, false,
          some "An account with this email exists but is not verified. Please verify your email first or log in with your password."),
          st)) := by
  constructor
  · intro hv
    simp [_resolve_oauth_user, hnolink, _resolve_by_email_or_register, he, hfind, hv]
  · intro hv
    simp [_resolve_oauth_user, hnolink, _resolve_by_email_or_register, he, hfind, hv]

/-- A concrete local user fixture whose email is verified. -/
def wVerifiedUser : UserRec :=
  { id := 3, username := "amy", email := some "amy@example.org",
    email_verified_at := some 10, role := "user" }

/-- A concrete local user fixture whose email is not verified. -/
def wUnverifiedUser : UserRec :=
  { id := 4, username := "bob", email := some "bob@example.org",
    email_verified_at := none, role := "user" }

/-- A concrete OAuth store fixture holding the two local users and no
links. -/
def wOAuthState : OAuthState :=
  { users := [wVerifiedUser, wUnverifiedUser], oauthAccounts := [],
    databases := [], userDatabases := [], twofaConfigs := [],
    twofaChallenges := [], refreshTokens := [] }

/-- Witness for claim C5: the verified account is auto-linked, the
unverified account is refused with the actionable message and an
unchanged store. -/
theorem oauth_auto_link_safety_witness :
    _resolve_oauth_user "google" "g-1" (some "amy@example.org") none true
        90 91 92 100 wOAuthState =
      ((some wVerifiedUser, false, none),
        { wOAuthState with oauthAccounts := wOAuthState.oauthAccounts ++
            [{ id := 92, user_id := 3, provider := "google",
               provider_user_id := "g-1", provider_email := some "amy@example.org",
               profile_data := none }] }) ∧
    _resolve_oauth_user "google" "g-2" (some "bob@example.org") none true
        90 91 92 100 wOAuthState =
      ((none, false,
        some "An account with this email exists but is not verified. Please verify your email first or log in with your password."),
        wOAuthState) := by
  constructor
  · have h := (oauth_auto_link_safety "google" "g-1" "amy@example.org" none true
      90 91 92 100 wVerifiedUser wOAuthState (by decide) (by decide) (by decide)).1
      (by decide)
    rw [h]
    simp [wVerifiedUser]
  · exact (oauth_auto_link_safety "google" "g-2" "bob@example.org" none true
      90 91 92 100 wUnverifiedUser wOAuthState (by decide) (by decide)
      (by decide)).2 (by decide)

/-- Claim C6: ID-token audience enforcement in the OAuth callback. For
a signature-valid ID token whose aud claim (string, list, or absent)
does not contain the configured client id, the callback rejects with
the audience-mismatch outcome — HTTP 401, message ID token audience
mismatch — and the stores are untouched: no tokens issued, no user
created or resolved. -/
theorem id_token_audience_enforced (provider clientId : String)
    (mIss : Option String) (sp : StatePayload) (claims : IdClaims)
    (autoRegister : Bool) (nuid ndb nlink : Nat) (tst : String) (nch : Nat)
    (di : Option String) (nrt : String) (nri now : Nat) (st : OAuthState)
    (hiss : claims.iss = mIss)
    (haud : audienceMismatchB clientId claims.aud = true) :
    oauth_callback_core provider clientId mIss sp claims autoRegister
        nuid ndb nlink tst nch di nrt nri now st =
      (.audienceMismatch, st) ∧
    CallbackResult.audienceMismatch.status = 401 ∧
    CallbackResult.audienceMismatch.message = "ID token audience mismatch" := by
  refine ⟨?_, rfl, rfl⟩
  simp [oauth_callback_core, hiss, haud]

/-- A signature-valid claims fixture whose aud names a different
client. -/
def wBadAudClaims : IdClaims :=
  { iss := some "https://accounts.example.org", aud := .str "other-client",
    nonce := some "n-1", sub := some "g-9", email := some "amy@example.org",
    email_verified := .b true, profile := some "p" }

/-- A concrete state payload fixture for the callback witnesses. -/
def wStatePayload : StatePayload :=
  { provider := "google", flow := "login", state_nonce := "sn",
    id_token_nonce := "n-1", code_verifier := "cv", exp := 300, iat := 0,
    typ := "oauth_state", link_user_id := none }

/-- Witness for claim C6 at a concrete callback instance. -/
theorem id_token_audience_enforced_witness :
    oauth_callback_core "google" "my-client"
        (some "https://accounts.example.org") wStatePayload wBadAudClaims true
        90 91 92 "tst" 93 none "rt" 94 100 wOAuthState =
      (.audienceMismatch, wOAuthState) ∧
    CallbackResult.audienceMismatch.status = 401 ∧
    CallbackResult.audienceMismatch.message = "ID token audience mismatch" :=
  id_token_audience_enforced "google" "my-client"
    (some "https://accounts.example.org") wStatePayload wBadAudClaims true
    90 91 92 "tst" 93 none "rt" 94 100 wOAuthState (by decide) (by decide)

/-- Claim C7 as amended: with an otherwise valid ID token in the login
flow, no existing link, no local user matching the (possibly absent)
normalized email, and auto-registration policy-disabled, the callback
fails with the account-not-found message directing the user to an
administrator, surfaced as HTTP 409 (the code maps every resolver error
to 409, not 403), and no account is created: the stores are
untouched. -/
theorem oauth_account_not_found_409 (provider clientId : String)
    (mIss : Option String) (sp : StatePayload) (claims : IdClaims)
    (nuid ndb nlink : Nat) (tst : String) (nch : Nat)
    (di : Option String) (nrt : String) (nri now : Nat)
    (st : OAuthState) (puid : String)
    (hiss : claims.iss = mIss)
    (haud : audienceMismatchB clientId claims.aud = false)
    (hnonce : sp.id_token_nonce = "" ∨ claims.nonce = some sp.id_token_nonce)
    (hev : claims.email = none ∨ emailVerifiedTruthy claims.email_verified = true)
    (hsub : claims.sub = some puid) (hpuid : puid ≠ "")
    (hflow : sp.flow ≠ "link")
    (hnolink : st.oauthAccounts.find? (linkMatch provider puid) = none)
    (hnouser : ∀ e, normalizeEmail claims.email = some e →
      st.users.find? (emailMatch e) = none) :
    oauth_callback_core provider clientId mIss sp claims false
        nuid ndb nlink tst nch di nrt nri now st =
      (.resolveError "Account not found. Contact your administrator.", st) ∧
    (CallbackResult.resolveError
      "Account not found. Contact your administrator.").status = 409 := by
  refine ⟨?_, rfl⟩
  have hresolve : _resolve_oauth_user provider puid (normalizeEmail claims.email)
      claims.profile false nuid ndb nlink now st =
      ((none, false, some "Account not found. Contact your administrator."), st) := by
    rcases hne : normalizeEmail claims.email with _ | e
    · simp [_resolve_oauth_user, hnolink, _resolve_by_email_or_register]
    · have hnu := hnouser e hne
      by_cases he : e = ""
      · subst he
        simp [_resolve_oauth_user, hnolink, _resolve_by_email_or_register]
      · simp [_resolve_oauth_user, hnolink, _resolve_by_email_or_register, he, hnu]
  rcases hev with hev | hev
  · rw [hev] at hresolve
    rcases hnonce with hnonce | hnonce <;>
      simp [oauth_callback_core, hiss, haud, hnonce, hev, hsub, hpuid, hflow,
        hresolve]
  · rcases hnonce with hnonce | hnonce <;>
      simp [oauth_callback_core, hiss, haud, hnonce, hev, hsub, hpuid, hflow,
        hresolve]

/-- A signature-valid claims fixture with a correct audience and an
email that matches no local account. -/
def wNewUserClaims : IdClaims :=
  { iss := some "https://accounts.example.org", aud := .str "my-client",
    nonce := some "n-1", sub := some "g-9", email := some "new@example.org",
    email_verified := .b true, profile := some "p" }

/-- Counterexample for claim C7 as stated: at a concrete callback
instance with auto-registration disabled, the account-not-found
rejection carries HTTP status 409, not the claimed 403. -/
theorem oauth_account_not_found_status_counterexample :
    (oauth_callback_core "google" "my-client"
        (some "https://accounts.example.org") wStatePayload wNewUserClaims false
        90 91 92 "tst" 93 none "rt" 94 100 wOAuthState).1 =
      .resolveError "Account not found. Contact your administrator." ∧
    (oauth_callback_core "google" "my-client"
        (some "https://accounts.example.org") wStatePayload wNewUserClaims false
        90 91 92 "tst" 93 none "rt" 94 100 wOAuthState).1.status = 409 ∧
    ¬ (oauth_callback_core "google" "my-client"
        (some "https://accounts.example.org") wStatePayload wNewUserClaims false
        90 91 92 "tst" 93 none "rt" 94 100 wOAuthState).1.status = 403 := by
  refine ⟨?_, ?_, ?_⟩ <;> decide

/-- Witness for claim C7 as amended, at the same concrete instance. -/
theorem oauth_account_not_found_409_witness :
    oauth_callback_core "google" "my-client"
        (some "https://accounts.example.org") wStatePayload wNewUserClaims false
        90 91 92 "tst" 93 none "rt" 94 100 wOAuthState =
      (.resolveError "Account not found. Contact your administrator.",
        wOAuthState) ∧
    (CallbackResult.resolveError
      "Account not found. Contact your administrator.").status = 409 :=
  oauth_account_not_found_409 "google" "my-client"
    (some "https://accounts.example.org") wStatePayload wNewUserClaims
    90 91 92 "tst" 93 none "rt" 94 100 wOAuthState "g-9"
    (by decide) (by decide) (Or.inr (by decide)) (Or.inr (by decide))
    (by decide) (by decide) (by decide) (by decide)
    (by intro e he; simp [normalizeEmail, wNewUserClaims] at he; subst he; decide)

end BillManager
